import Mathlib

/-!
Shallow embedding of the AT-command driver in `ec600n.go` of the
`alert-mobile-notify` repository, together with theorems settling the
frozen specification claims C1–C10.

Modelling conventions:
* the serial port is modelled by the data the driver can observe from it:
  the list of complete lines a sequence of `bufio.Reader.ReadString('\n')`
  calls yields (list exhaustion models a read error or end of stream), plus
  boolean flags for `Flush`/`Write`/`Close` failures;
* Go strings are Lean `String`s; `strings.Contains` is byte-based in Go but
  on valid UTF-8 input byte-level containment of a pattern coincides with
  character-level containment (UTF-8 is self-synchronising), so it is
  embedded character-wise, as are `TrimSpace`, `ToUpper` and the regular
  expressions (hand-compiled to deterministic scanners: each of the
  patterns used by the driver is backtracking-free because every greedy
  class `\s*`, `\d+`, `[^"]+` is followed by a literal outside the class);
* Go's multiple return values `(value, error)` are embedded as
  `value × Option GoError`, keeping the zero value the function returns
  alongside its error exactly as the source does;
* transport side effects are made observable as an explicit list of
  operations (`flush`, `write bytes`) returned next to the result;
* `fmt.Sscanf(matches[1], "%d", &signal)` on the captured digit string is
  modelled by `sscanfDecimal`: the numeric value of the digits when it fits
  Go's 64-bit `int` (the build targets linux/amd64), and the out-of-range
  scan error — on which the source returns `(0, error)` — beyond that.
-/

namespace Ec600n

/-- Errors produced by the driver, one constructor per distinct `fmt.Errorf`
failure shape that matters to the claims. -/
inductive GoError where
  | portNotConnected
  | flushFailed
  | writeFailed
  | closeFailed
  | parseFailed
  | valueOutOfRange
  deriving DecidableEq, Repr

/-- One observable transport side effect of the driver
(`port.Flush()` or `port.Write(bytes)`). -/
inductive TransportOp where
  | flush
  | write (bytes : String)
  deriving DecidableEq, Repr

/-- Does `s` start with the pattern `pat` (as character lists)? -/
def listStartsWith : List Char → List Char → Bool
  | [], _ => true
  | _ :: _, [] => false
  | p :: ps, c :: cs => p == c && listStartsWith ps cs

/-- Does `s` contain `pat` as a contiguous sublist? Scans every position. -/
def listContainsSub (pat : List Char) : List Char → Bool
  | [] => listStartsWith pat []
  | c :: cs => listStartsWith pat (c :: cs) || listContainsSub pat cs

/-- Embedding of Go `strings.Contains(s, sub)`. -/
def goContains (s sub : String) : Bool :=
  listContainsSub sub.toList s.toList

/-- The white-space class of Go `unicode.IsSpace` restricted to ASCII
(the driver only ever meets ASCII modem chatter). -/
def isGoSpace (c : Char) : Bool :=
  c == ' ' || c == '\t' || c == '\n' || c == '\x0b' || c == '\x0c' || c == '\r'

/-- Embedding of Go `strings.TrimSpace`: drop white space from both ends. -/
def goTrim (s : String) : String :=
  String.mk (((s.toList.dropWhile isGoSpace).reverse.dropWhile isGoSpace).reverse)

/-- Embedding of Go `strings.ToUpper` (character-wise; ASCII suffices for
the call-progress keywords). -/
def goToUpper (s : String) : String :=
  String.mk (s.toList.map Char.toUpper)

/-- Embedding of Go `strings.ReplaceAll(s, string(c), "")`: with a
single-character pattern and an empty replacement, `ReplaceAll` removes
every occurrence of that character. -/
def goRemoveAll (s : String) (c : Char) : String :=
  String.mk (s.toList.filter (fun d => d != c))

/-- Embedding of Go `strings.Split(s, "\n")`: split at every newline,
preserving empty parts. -/
def splitOnChar (sep : Char) : List Char → List (List Char)
  | [] => [[]]
  | c :: cs =>
    match splitOnChar sep cs with
    | [] => if c == sep then [[], [c]] else [[c]]
    | h :: t => if c == sep then [] :: h :: t else (c :: h) :: t

/-- String-level wrapper of `splitOnChar` for `strings.Split(s, "\n")`. -/
def goSplitLines (s : String) : List String :=
  (splitOnChar '\n' s.toList).map String.mk

/-- Embedding of Go `strings.IndexAny(s, chars)`: index of the first
character of `s` drawn from `chars`, `-1` when there is none. -/
def goIndexAny (s chars : String) : Int :=
  match s.toList.findIdx? (fun c => chars.toList.contains c) with
  | some i => (i : Int)
  | none => -1

/-- Source constant `MaxResponseLines = 10`. -/
def maxResponseLines : Nat := 10

/-- Source constant `MinSignalStrength = 5`. -/
def minSignalStrength : Int := 5

/-- Source constant `IMEILength = 15`. -/
def imeiLength : Nat := 15

/-- The sentinel test of `readResponse`:
`strings.Contains(line, "OK") || strings.Contains(line, "ERROR")`. -/
def isSentinelLine (line : String) : Bool :=
  goContains line "OK" || goContains line "ERROR"

/-- The accumulation loop of `readResponse`: read up to `fuel` lines from the
stream `ls` (exhaustion models a `ReadString` error, which breaks the loop),
append each line read, and stop just after the first sentinel line. -/
def readLines : Nat → List String → List String
  | 0, _ => []
  | _ + 1, [] => []
  | n + 1, l :: ls => if isSentinelLine l then [l] else l :: readLines n ls

/-- Embedding of `readResponse`: the accumulated text together with the
returned error, which the source makes unconditionally `nil`. -/
def readResponse (ls : List String) : String × Option GoError :=
  (String.join (readLines maxResponseLines ls), none)

/-- Behaviour of the serial port as observed by the driver: whether `Flush`
or `Write` or `Close` fail, and the lines subsequent reads yield. -/
structure PortModel where
  flushFails : Bool
  writeFails : Bool
  closeFails : Bool
  lines : List String
  deriving DecidableEq, Repr

/-- Embedding of `sendATCommand`: result paired with the list of transport
operations issued. `none` for the port models `e.port == nil`. -/
def sendATCommand (port : Option PortModel) (command : String) :
    Except GoError String × List TransportOp :=
  match port with
  | none => (.error .portNotConnected, [])
  | some p =>
    if p.flushFails then (.error .flushFailed, [.flush])
    else
      let fullCommand := command ++ "\r\n"
      if p.writeFails then (.error .writeFailed, [.flush, .write fullCommand])
      else
        match readResponse p.lines with
        | (response, _) => (.ok response, [.flush, .write fullCommand])

/-- The `CallStatus` enumeration of the source (string constants
`CONNECTED`, `HANGUP`, `BUSY`, `NO_ANSWER`, `NO_CARRIER`, `ERROR`). -/
inductive CallStatus where
  | connected
  | hangup
  | busy
  | noAnswer
  | noCarrier
  | error
  deriving DecidableEq, Repr

/-- The per-line classification of `monitorCallStatus`: trim the line,
upper-case it, and test the call-progress substrings in the source's
switch order. `none` models a line matching no case. -/
def classifyLine (line : String) : Option CallStatus :=
  let lineUpper := goToUpper (goTrim line)
  if goContains lineUpper "NO CARRIER" then some .noCarrier
  else if goContains lineUpper "BUSY" then some .busy
  else if goContains lineUpper "NO ANSWER" then some .noAnswer
  else if goContains lineUpper "CONNECT" then some .connected
  else if goContains lineUpper "ERROR" then some .error
  else none

/-- The statuses on which the `monitorCallStatus` goroutine executes
`return` right after emitting (the first three switch cases). -/
def isTerminalStatus : CallStatus → Bool
  | .noCarrier => true
  | .busy => true
  | .noAnswer => true
  | _ => false

/-- Embedding of the `monitorCallStatus` scan loop: the sequence of statuses
sent on the event channel while consuming the given lines in order
(reads that time out or fail are "no news" and are not modelled as lines;
cancellation is not exercised by the claims). -/
def monitorCallStatus : List String → List CallStatus
  | [] => []
  | l :: ls =>
    match classifyLine l with
    | some s => if isTerminalStatus s then [s] else s :: monitorCallStatus ls
    | none => monitorCallStatus ls

/-- Whether the goroutine has returned — and hence, by `defer close`,
closed its event channel — by the time the given lines are consumed. -/
def monitorClosesChannel : List String → Bool
  | [] => false
  | l :: ls =>
    match classifyLine l with
    | some s => if isTerminalStatus s then true else monitorClosesChannel ls
    | none => monitorClosesChannel ls

/-- Specification-side description of the emission policy: from the stream
of classified statuses, emit everything up to and including the first
terminal status, and nothing after it. -/
def emitsUpToTerminal : List CallStatus → List CallStatus
  | [] => []
  | s :: ss => if isTerminalStatus s then [s] else s :: emitsUpToTerminal ss

/-- The phone-number sanitisation inlined in `MakeCall` and
`MakeCallWithMonitor`: `TrimSpace`, then remove every "-", then remove
every " ". -/
def sanitizePhoneNumber (phoneNumber : String) : String :=
  goRemoveAll (goRemoveAll (goTrim phoneNumber) '-') ' '

/-- Errors of the dialling paths, one constructor per `return`-with-error
site of `MakeCall` / `MakeCallWithMonitor`. -/
inductive CallError where
  | portNotConnected
  | emptyPhoneNumber
  | sendFailed (e : GoError)
  | dialFailed (response : String)
  deriving DecidableEq, Repr

/-- Embedding of `MakeCall`: the returned error (or success) paired with
the transport operations issued. -/
def MakeCall (port : Option PortModel) (phoneNumber : String) :
    Except CallError Unit × List TransportOp :=
  match port with
  | none => (.error .portNotConnected, [])
  | some p =>
    let sanitized := sanitizePhoneNumber phoneNumber
    if sanitized = "" then (.error .emptyPhoneNumber, [])
    else
      match sendATCommand (some p) ("ATD" ++ sanitized ++ ";") with
      | (.error e, ops) => (.error (.sendFailed e), ops)
      | (.ok response, ops) =>
        if goContains response "OK" || goContains response "CONNECT" then
          (.ok (), ops)
        else (.error (.dialFailed response), ops)

/-- Embedding of `MakeCallWithMonitor`: the synchronous result and
transport operations of the dial path, together with whether the
`monitorCallStatus` goroutine was started at all. -/
def MakeCallWithMonitor (port : Option PortModel) (phoneNumber : String) :
    (Except CallError Unit × List TransportOp) × Bool :=
  match port with
  | none => ((.error .portNotConnected, []), false)
  | some p =>
    let sanitized := sanitizePhoneNumber phoneNumber
    if sanitized = "" then ((.error .emptyPhoneNumber, []), false)
    else
      match sendATCommand (some p) ("ATD" ++ sanitized ++ ";") with
      | (.error e, ops) => ((.error (.sendFailed e), ops), true)
      | (.ok response, ops) =>
        if goContains response "OK" || goContains response "CONNECT" then
          ((.ok (), ops), true)
        else ((.error (.dialFailed response), ops), true)

/-- The `NetworkStatus` record of the source. The wall-clock `Timestamp`
field is not modelled (real time is outside the embedding); no claim
mentions it. -/
structure NetworkStatus where
  SignalStrength : Int
  NetworkRegStatus : String
  SIMStatus : String
  OperatorName : String
  IMEI : String
  deriving DecidableEq, Repr

/-- The `networkRegStatusMap` lookup table of the source. -/
def networkRegStatusMap (code : String) : Option String :=
  if code = "0" then some "未注册"
  else if code = "1" then some "已注册本地网络"
  else if code = "2" then some "正在搜索"
  else if code = "3" then some "注册被拒绝"
  else if code = "5" then some "已注册漫游"
  else none

/-- Embedding of `isNetworkStatusNormal`: signal above the threshold,
registered on the home network, SIM ready. -/
def isNetworkStatusNormal (status : NetworkStatus) : Bool :=
  decide (status.SignalStrength > minSignalStrength) &&
    status.NetworkRegStatus == "已注册本地网络" &&
    status.SIMStatus == "就绪"

/-- Numeric value of a digit character. -/
def charDigitVal (c : Char) : Nat :=
  c.toNat - '0'.toNat

/-- Value of a string of decimal digits, most significant first (the
behaviour of `fmt.Sscanf(s, "%d", ...)` on a captured `\d+` group). -/
def digitsToNat (ds : List Char) : Nat :=
  ds.foldl (fun a c => 10 * a + charDigitVal c) 0

/-- The white-space class `\s` of Go's regexp package: `[\t\n\f\r ]`. -/
def isRegexSpace (c : Char) : Bool :=
  c == ' ' || c == '\t' || c == '\n' || c == '\x0c' || c == '\r'

/-- Largest value of Go's 64-bit `int`, the target of the `%d` scan. -/
def maxGoInt : Nat :=
  2 ^ 63 - 1

/-- Embedding of `fmt.Sscanf(s, "%d", &signal)` on a captured `\d+` group:
the value of the digits when it fits Go's `int`, and the out-of-range scan
error beyond that (the scanned variable is left at its zero value). -/
def sscanfDecimal (ds : List Char) : Except GoError Nat :=
  if digitsToNat ds ≤ maxGoInt then .ok (digitsToNat ds)
  else .error .valueOutOfRange

/-- Matcher for the anchored pattern `\+CSQ:\s*(\d+),(\d+)` at the head of
the character list (hand-compiled; maximal munch is exact here because each
greedy class is followed by a literal outside the class). Returns the two
capture texts, as `FindStringSubmatch` does. -/
def matchCSQAt (cs : List Char) : Option (List Char × List Char) :=
  if listStartsWith ("+CSQ:".toList) cs then
    let rest := (cs.drop 5).dropWhile isRegexSpace
    match rest.span Char.isDigit with
    | (d1, rest2) =>
      if d1.isEmpty then none
      else
        match rest2 with
        | ',' :: rest3 =>
          match rest3.span Char.isDigit with
          | (d2, _) =>
            if d2.isEmpty then none else some (d1, d2)
        | _ => none
  else none

/-- Matcher for `\+CREG:\s*\d+,(\d+)` at the head of the list; returns the
captured status-code digits as a string. -/
def matchCREGAt (cs : List Char) : Option String :=
  if listStartsWith ("+CREG:".toList) cs then
    let rest := (cs.drop 6).dropWhile isRegexSpace
    match rest.span Char.isDigit with
    | (d1, rest2) =>
      if d1.isEmpty then none
      else
        match rest2 with
        | ',' :: rest3 =>
          match rest3.span Char.isDigit with
          | (d2, _) => if d2.isEmpty then none else some (String.mk d2)
        | _ => none
  else none

/-- Matcher for `\+COPS:\s*\d+,\d+,"([^"]+)"` at the head of the list;
returns the captured quoted operator name. -/
def matchCOPSAt (cs : List Char) : Option String :=
  if listStartsWith ("+COPS:".toList) cs then
    let rest := (cs.drop 6).dropWhile isRegexSpace
    match rest.span Char.isDigit with
    | (d1, rest2) =>
      if d1.isEmpty then none
      else
        match rest2 with
        | ',' :: rest3 =>
          match rest3.span Char.isDigit with
          | (d2, rest4) =>
            if d2.isEmpty then none
            else
              match rest4 with
              | ',' :: '"' :: rest5 =>
                match rest5.span (fun c => c != '"') with
                | (name, rest6) =>
                  if name.isEmpty then none
                  else
                    match rest6 with
                    | '"' :: _ => some (String.mk name)
                    | _ => none
              | _ => none
        | _ => none
  else none

/-- Leftmost-match search of Go's `FindStringSubmatch`: try the anchored
matcher at every position, left to right. (None of the driver's patterns
can match at the empty suffix, so stopping at `[]` is exact.) -/
def scanFirst {α : Type} (m : List Char → Option α) : List Char → Option α
  | [] => none
  | c :: cs =>
    match m (c :: cs) with
    | some r => some r
    | none => scanFirst m cs

/-- Embedding of the parsing part of `getSignalStrength` (`AT+CSQ`): run
`fmt.Sscanf` on the first capture of `reCSQ`; zero value plus error when
nothing matches or when the scanned value does not fit Go's `int`. -/
def getSignalStrength (response : String) : Int × Option GoError :=
  match scanFirst matchCSQAt response.toList with
  | some nm =>
    match sscanfDecimal nm.1 with
    | .ok v => ((v : Int), none)
    | .error e => (0, some e)
  | none => (0, some .parseFailed)

/-- Embedding of the parsing part of `getNetworkRegistrationStatus`
(`AT+CREG?`): map the captured code through `networkRegStatusMap`, with
"未知状态" for unknown codes and an error when nothing matches. -/
def getNetworkRegistrationStatus (response : String) : String × Option GoError :=
  match scanFirst matchCREGAt response.toList with
  | none => ("", some .parseFailed)
  | some code =>
    match networkRegStatusMap code with
    | some status => (status, none)
    | none => ("未知状态", none)

/-- Embedding of the parsing part of `getSIMStatus` (`AT+CPIN?`): substring
cases on "READY" / "SIM PIN" / "SIM PUK"; the switch never fails. -/
def getSIMStatus (response : String) : String × Option GoError :=
  (if goContains response "READY" then "就绪"
   else if goContains response "SIM PIN" then "需要PIN码"
   else if goContains response "SIM PUK" then "需要PUK码"
   else "未知状态", none)

/-- Embedding of the parsing part of `getOperatorName` (`AT+COPS?`): the
captured quoted name, or zero value plus error when nothing matches. -/
def getOperatorName (response : String) : String × Option GoError :=
  match scanFirst matchCOPSAt response.toList with
  | some name => (name, none)
  | none => ("", some .parseFailed)

/-- The IMEI line test of the current `getIMEI`:
`len(line) == IMEILength && reIMEI.MatchString(line)` with
`reIMEI = ^\d{15}$` — the regex requires exactly 15 decimal digits (which
subsumes the byte-length check for ASCII). -/
def isIMEILine (line : String) : Bool :=
  line.length == imeiLength && line.toList.all Char.isDigit

/-- Embedding of the parsing part of the current `getIMEI` (`AT+CGSN`):
split the response on newlines, trim each line, return the first line that
is exactly 15 decimal digits; otherwise zero value plus error. -/
def getIMEI (response : String) : String × Option GoError :=
  match ((goSplitLines response).map goTrim).find? isIMEILine with
  | some line => (line, none)
  | none => ("", some .parseFailed)

/-- The IMEI line test of the older `getIMEI` variant (part_002):
`len(line) == IMEILength && strings.IndexAny(line, "0123456789") == 0`.
Its own comment says "IMEI 长度为 15 且全部为数字" (length 15 and all
digits), but `IndexAny == 0` only checks that the first character is a
digit. -/
def isIMEILine002 (line : String) : Bool :=
  line.length == imeiLength && goIndexAny line "0123456789" == 0

/-- Embedding of the parsing part of the older `getIMEI` variant
(part_002), identical except for the line test. -/
def getIMEI002 (response : String) : String × Option GoError :=
  match ((goSplitLines response).map goTrim).find? isIMEILine002 with
  | some line => (line, none)
  | none => ("", some .parseFailed)

/-- The raw responses the five status queries of `CheckNetworkStatus`
observe; `.error` models a failing `sendATCommand` for that query. -/
structure ModemResponses where
  csq : Except GoError String
  creg : Except GoError String
  cpin : Except GoError String
  cops : Except GoError String
  cgsn : Except GoError String

/-- One field query of `CheckNetworkStatus`: a failing command yields the
field's zero value next to the error, otherwise the parser runs. -/
def fieldResult {α : Type} (parse : String → α × Option GoError) (zero : α) :
    Except GoError String → α × Option GoError
  | .error e => (zero, some e)
  | .ok response => parse response

/-- Embedding of `CheckNetworkStatus`: every field is collected
independently with its error discarded (`status.X, _ = e.getX()`), and the
returned error is unconditionally `nil`. -/
def CheckNetworkStatus (rs : ModemResponses) : NetworkStatus × Option GoError :=
  (⟨(fieldResult getSignalStrength 0 rs.csq).1,
    (fieldResult getNetworkRegistrationStatus "" rs.creg).1,
    (fieldResult getSIMStatus "" rs.cpin).1,
    (fieldResult getOperatorName "" rs.cops).1,
    (fieldResult getIMEI "" rs.cgsn).1⟩, none)

/-- The configuration slice `cfg.EC600N` the constructor reads. -/
structure EC600NConfig where
  enabled : Bool
  serialPort : String
  baudRate : Nat
  deriving DecidableEq, Repr

/-- Environment of `NewEC600N`: whether `serial.OpenPort` succeeds and, if
so, how the opened port behaves for the "AT" connection test. -/
structure SerialEnv where
  openOk : Bool
  port : PortModel
  deriving DecidableEq, Repr

/-- Failures of `NewEC600N`, one constructor per wrapped error. -/
inductive InitError where
  | openFailed
  | testFailed (e : GoError)
  | testBadResponse (response : String)
  deriving DecidableEq, Repr

/-- The mutable state of the `EC600N` controller that the claims observe. -/
structure EC600NState where
  port : Option PortModel
  connected : Bool
  deriving DecidableEq, Repr

/-- Embedding of `NewEC600N`: the `(instance, error)` pair together with
whether `serial.OpenPort` was ever attempted. A disabled feature returns
`(nil, nil)` before touching the serial layer. -/
def NewEC600N (cfg : EC600NConfig) (env : SerialEnv) :
    (Option EC600NState × Option InitError) × Bool :=
  if cfg.enabled then
    if env.openOk then
      match sendATCommand (some env.port) "AT" with
      | (.error e, _) => ((none, some (.testFailed e)), true)
      | (.ok response, _) =>
        if goContains response "OK" then
          ((some ⟨some env.port, true⟩, none), true)
        else ((none, some (.testBadResponse response)), true)
    else ((none, some .openFailed), true)
  else ((none, none), false)

/-- Embedding of `Close`: clear the connected flag, then close the port
when there is one, returning that close's error. -/
def Close (e : EC600NState) : EC600NState × Option GoError :=
  match e.port with
  | some p => (⟨some p, false⟩, if p.closeFails then some .closeFailed else none)
  | none => (⟨none, false⟩, none)

/-- Embedding of `IsConnected`. -/
def IsConnected (e : EC600NState) : Bool :=
  e.connected

/-! ## Theorems -/

/-- The `readLines` loop is exactly: take lines up to and including the first
sentinel among the first `n`, and all of the first `n` when no sentinel
occurs there. (`List.findIdx` returns the list length when nothing is
found, which makes the single `take` formula cover both cases.) -/
theorem readLines_eq_take (n : Nat) (ls : List String) :
    readLines n ls =
      ls.take (min n ((ls.take n).findIdx isSentinelLine + 1)) := by
  induction ls generalizing n with
  | nil => cases n <;> simp [readLines]
  | cons l ls ih =>
    cases n with
    | zero => simp [readLines]
    | succ n =>
      by_cases h : isSentinelLine l
      · simp [readLines, h, List.findIdx_cons, Nat.min_def]
      · have h' : isSentinelLine l = false := by simpa using h
        have hfind : ((l :: ls).take (n + 1)).findIdx isSentinelLine
            = (ls.take n).findIdx isSentinelLine + 1 := by
          simp only [List.take_succ_cons, List.findIdx_cons, h', cond_false]
        rw [hfind, Nat.succ_min_succ, List.take_succ_cons]
        simp only [readLines, h', Bool.false_eq_true, if_false]
        rw [ih]

/-- Claim C1: `sendCommand`'s read loop accumulates at most 10 lines, stops
at the first line containing "OK" or "ERROR" (that line included), and when
no sentinel appears within the 10-line budget, or the stream fails first,
the accumulated partial text is returned with a nil error (success), never
as a timeout or error. -/
theorem claim_C1_readResponse (ls : List String) :
    (readResponse ls).2 = none ∧
    (readResponse ls).1 = String.join (readLines maxResponseLines ls) ∧
    (readLines maxResponseLines ls).length ≤ maxResponseLines ∧
    readLines maxResponseLines ls =
      ls.take (min maxResponseLines
        ((ls.take maxResponseLines).findIdx isSentinelLine + 1)) := by
  refine ⟨rfl, rfl, ?_, readLines_eq_take _ _⟩
  rw [readLines_eq_take]
  calc (ls.take (min maxResponseLines
          ((ls.take maxResponseLines).findIdx isSentinelLine + 1))).length
      ≤ min maxResponseLines
          ((ls.take maxResponseLines).findIdx isSentinelLine + 1) :=
        List.length_take_le _ _
    _ ≤ maxResponseLines := Nat.min_le_left _ _

/-- The monitor loop emits exactly the classified statuses of its input
lines truncated at the first terminal status (inclusive). -/
theorem monitorCallStatus_eq_emitsUpToTerminal (ls : List String) :
    monitorCallStatus ls = emitsUpToTerminal (ls.filterMap classifyLine) := by
  induction ls with
  | nil => rfl
  | cons l ls ih =>
    cases hcl : classifyLine l with
    | none => simpa [monitorCallStatus, hcl, List.filterMap_cons] using ih
    | some s =>
      by_cases ht : isTerminalStatus s
      · simp [monitorCallStatus, hcl, List.filterMap_cons, emitsUpToTerminal, ht]
      · simp [monitorCallStatus, hcl, List.filterMap_cons, emitsUpToTerminal, ht, ih]

/-- Claim C2: each line is upper-cased and tested in priority order for
"NO CARRIER", "BUSY", "NO ANSWER", "CONNECT", "ERROR"; the first three
matches emit a terminal status and end the task (closing the channel) while
"CONNECT"/"ERROR" matches emit and keep scanning; in particular the lines
"RING", "NO CARRIER" yield exactly the one status no-carrier followed by
channel closure, with nothing emitted for "RING". -/
theorem claim_C2_monitorCallStatus :
    (∀ ls, monitorCallStatus ls = emitsUpToTerminal (ls.filterMap classifyLine)) ∧
    classifyLine "RING" = none ∧
    monitorCallStatus ["RING", "NO CARRIER"] = [CallStatus.noCarrier] ∧
    monitorClosesChannel ["RING", "NO CARRIER"] = true ∧
    classifyLine "no carrier" = some CallStatus.noCarrier ∧
    classifyLine "BUSY NO CARRIER" = some CallStatus.noCarrier ∧
    classifyLine "ERROR CONNECT" = some CallStatus.connected ∧
    monitorCallStatus ["CONNECT", "ERROR", "RING", "BUSY", "NO ANSWER"]
      = [CallStatus.connected, CallStatus.error, CallStatus.busy] ∧
    monitorClosesChannel ["CONNECT", "ERROR", "RING"] = false := by
  exact ⟨monitorCallStatus_eq_emitsUpToTerminal, by decide, by decide, by decide,
    by decide, by decide, by decide, by decide, by decide⟩

/-- Claim C3: a phone number that sanitises to the empty string makes
`MakeCall` (and `MakeCallWithMonitor`) return the validation error without
issuing any transport operation — no flush and no write — and without
starting the monitor task; `""` and `"   "` are such numbers. -/
theorem claim_C3_dial_empty_validation :
    (∀ (p : PortModel) (phoneNumber : String),
      sanitizePhoneNumber phoneNumber = "" →
      MakeCall (some p) phoneNumber = (.error .emptyPhoneNumber, []) ∧
      MakeCallWithMonitor (some p) phoneNumber
        = ((.error .emptyPhoneNumber, []), false)) ∧
    sanitizePhoneNumber "" = "" ∧
    sanitizePhoneNumber "   " = "" := by
  refine ⟨?_, by decide, by decide⟩
  intro p phoneNumber h
  constructor
  · simp [MakeCall, h]
  · simp [MakeCallWithMonitor, h]

/-- Witness for claim C3 at the concrete inputs of the spec. -/
theorem claim_C3_dial_empty_validation_witness :
    MakeCall (some ⟨false, false, false, ["OK\r\n"]⟩) "   "
      = (.error .emptyPhoneNumber, []) ∧
    MakeCallWithMonitor (some ⟨false, false, false, ["OK\r\n"]⟩) "   "
      = ((.error .emptyPhoneNumber, []), false) :=
  claim_C3_dial_empty_validation.1 ⟨false, false, false, ["OK\r\n"]⟩ "   "
    (by decide)

/-- Claim C4: `MakeCall` sanitises its argument by trimming surrounding
white space and removing every dash and every interior space, then sends
exactly the command "ATD<sanitized>;" (the executor appends CR-LF); in
particular dialling " 138-0013-8000 " writes "ATD13800138000;\r\n" after
the flush. -/
theorem claim_C4_dial_sanitizes :
    sanitizePhoneNumber " 138-0013-8000 " = "13800138000" ∧
    (∀ (p : PortModel) (phoneNumber : String),
      p.flushFails = false →
      sanitizePhoneNumber phoneNumber ≠ "" →
      (MakeCall (some p) phoneNumber).2 =
        [TransportOp.flush,
          TransportOp.write ("ATD" ++ sanitizePhoneNumber phoneNumber ++ ";" ++ "\r\n")]) ∧
    MakeCall (some ⟨false, false, false, ["OK\r\n"]⟩) " 138-0013-8000 "
      = (.ok (), [TransportOp.flush, TransportOp.write "ATD13800138000;\r\n"]) := by
  refine ⟨by decide, ?_, by rfl⟩
  intro p phoneNumber hflush h
  cases hw : p.writeFails
  all_goals simp [MakeCall, sendATCommand, h, hflush, hw]
  split <;> rfl

/-- Witness for claim C4 at the concrete input of the spec. -/
theorem claim_C4_dial_sanitizes_witness :
    (MakeCall (some ⟨false, false, true, []⟩) " 138-0013-8000 ").2 =
      [TransportOp.flush,
        TransportOp.write ("ATD" ++ sanitizePhoneNumber " 138-0013-8000 " ++ ";" ++ "\r\n")] :=
  claim_C4_dial_sanitizes.2.1 ⟨false, false, true, []⟩ " 138-0013-8000 "
    rfl (by decide)

/-- Claim C5: `isNetworkStatusNormal` is true exactly when the signal
strength exceeds 5 and the registration state is registered-home (the
mapping of CREG code "1") and the SIM state is ready (the mapping of a
"READY" CPIN response); any single violated conjunct makes it false. -/
theorem claim_C5_isNetworkStatusNormal :
    (∀ status : NetworkStatus,
      isNetworkStatusNormal status = true ↔
        (minSignalStrength < status.SignalStrength ∧
          status.NetworkRegStatus = "已注册本地网络" ∧
          status.SIMStatus = "就绪")) ∧
    networkRegStatusMap "1" = some "已注册本地网络" ∧
    (getSIMStatus "+CPIN: READY\r\nOK\r\n").1 = "就绪" ∧
    isNetworkStatusNormal ⟨5, "已注册本地网络", "就绪", "", ""⟩ = false ∧
    isNetworkStatusNormal ⟨6, "未注册", "就绪", "", ""⟩ = false ∧
    isNetworkStatusNormal ⟨6, "已注册本地网络", "未知状态", "", ""⟩ = false ∧
    isNetworkStatusNormal ⟨6, "已注册本地网络", "就绪", "", ""⟩ = true := by
  refine ⟨?_, by decide, by decide, by decide, by decide, by decide, by decide⟩
  intro status
  simp [isNetworkStatusNormal, Bool.and_eq_true, decide_eq_true_eq, and_assoc]

/-- Claim C6 names the IMEI extraction: only a trimmed line of exactly 15
decimal digits is accepted, the first such line is returned, and a
15-character line containing a non-digit must be rejected. The current
`getIMEI` (part_003, `^\d{15}$`) behaves exactly so, but the older variant
still in the repository (part_002) tests
`strings.IndexAny(line, "0123456789") == 0`, which only requires the FIRST
character to be a digit — contradicting its own comment "IMEI 长度为 15
且全部为数字" — and accepts "0ABCDEFGHIJKLMN". -/
theorem claim_C6_getIMEI_first_digit_slip :
    getIMEI002 "0ABCDEFGHIJKLMN\r\nOK\r\n" = ("0ABCDEFGHIJKLMN", none) ∧
    "0ABCDEFGHIJKLMN".length = 15 ∧
    "0ABCDEFGHIJKLMN".toList.all Char.isDigit = false ∧
    getIMEI "0ABCDEFGHIJKLMN\r\nOK\r\n" = ("", some GoError.parseFailed) ∧
    getIMEI "861234567890123\r\nOK\r\n" = ("861234567890123", none) ∧
    getIMEI "12345678901234\r\nOK\r\n" = ("", some GoError.parseFailed) ∧
    getIMEI "1234567890123456\r\nOK\r\n" = ("", some GoError.parseFailed) ∧
    getIMEI "123456789012345\n987654321098765\nOK\n"
      = ("123456789012345", none) := by
  exact ⟨by decide, by decide, by decide, by decide, by decide, by decide,
    by decide, by decide⟩

/-- Claim C9: when the EC600N feature is disabled in configuration,
`NewEC600N` returns no instance and no error, and never attempts to open
the serial port. -/
theorem claim_C9_NewEC600N_disabled :
    ∀ (cfg : EC600NConfig) (env : SerialEnv), cfg.enabled = false →
      NewEC600N cfg env = ((none, none), false) := by
  intro cfg env h
  simp [NewEC600N, h]

/-- Witness for claim C9 at a concrete disabled configuration. -/
theorem claim_C9_NewEC600N_disabled_witness :
    NewEC600N ⟨false, "/dev/ttyUSB0", 115200⟩
        ⟨true, ⟨false, false, false, ["OK\r\n"]⟩⟩ = ((none, none), false) :=
  claim_C9_NewEC600N_disabled ⟨false, "/dev/ttyUSB0", 115200⟩
    ⟨true, ⟨false, false, false, ["OK\r\n"]⟩⟩ rfl

/-- Claim C10: `Close` always leaves the controller disconnected — after
any `Close`, `IsConnected` is false, even when closing the underlying port
fails — and `Close` with no open port is a no-op returning nil. -/
theorem claim_C10_Close_disconnects :
    (∀ e : EC600NState, IsConnected (Close e).1 = false) ∧
    (∀ e : EC600NState, e.port = none → Close e = (⟨none, false⟩, none)) ∧
    (∀ (e : EC600NState) (p : PortModel), e.port = some p →
      p.closeFails = true →
      Close e = (⟨some p, false⟩, some GoError.closeFailed)) := by
  refine ⟨?_, ?_, ?_⟩
  · intro e
    cases h : e.port <;> simp [Close, h, IsConnected]
  · intro e h
    simp [Close, h]
  · intro e p h hc
    simp [Close, h, hc]

/-- Witness for claim C10: a state with no port, and a state whose port
close fails, both end up disconnected. -/
theorem claim_C10_Close_disconnects_witness :
    Close ⟨none, true⟩ = (⟨none, false⟩, none) ∧
    Close ⟨some ⟨false, false, true, []⟩, true⟩
      = (⟨some ⟨false, false, true, []⟩, false⟩, some GoError.closeFailed) :=
  ⟨claim_C10_Close_disconnects.2.1 ⟨none, true⟩ rfl,
    claim_C10_Close_disconnects.2.2 ⟨some ⟨false, false, true, []⟩, true⟩
      ⟨false, false, true, []⟩ rfl rfl⟩

/-- Character lists of appended strings append. -/
theorem toList_append (s t : String) : (s ++ t).toList = s.toList ++ t.toList := by
  cases s
  cases t
  rfl

/-- The digit-fold with accumulator, against Mathlib's `Nat.ofDigits`
(least-significant-first, hence the reverse). -/
theorem digitsToNat_foldl_eq (ds : List Char) (a : Nat) :
    ds.foldl (fun a c => 10 * a + charDigitVal c) a
      = Nat.ofDigits 10 ((ds.map charDigitVal).reverse) + a * 10 ^ ds.length := by
  induction ds generalizing a with
  | nil => simp [Nat.ofDigits]
  | cons c ds ih =>
    simp only [List.foldl_cons, List.map_cons, List.reverse_cons, List.length_cons]
    rw [ih, Nat.ofDigits_append]
    simp [Nat.ofDigits]
    ring

/-- The value a `\d+` capture denotes, in terms of `Nat.ofDigits`. -/
theorem digitsToNat_eq_ofDigits (ds : List Char) :
    digitsToNat ds = Nat.ofDigits 10 ((ds.map charDigitVal).reverse) := by
  simpa [digitsToNat] using digitsToNat_foldl_eq ds 0

/-- A decimal digit is not in the regexp white-space class. -/
theorem isRegexSpace_eq_false_of_isDigit (c : Char) (h : c.isDigit = true) :
    isRegexSpace c = false := by
  cases hs : isRegexSpace c
  · rfl
  · exfalso
    have hs' := hs
    simp only [isRegexSpace, Bool.or_eq_true, beq_iff_eq, or_assoc] at hs'
    rcases hs' with rfl | rfl | rfl | rfl | rfl <;> exact absurd h (by decide)

/-- Splitting an all-true block followed by a false head: `takeWhile` keeps
exactly the block and `dropWhile` exposes the rest. -/
theorem takeWhile_dropWhile_all_append {p : Char → Bool} (d rest : List Char)
    (hd : d.all p = true) (hr : ∀ c, rest.head? = some c → p c = false) :
    (d ++ rest).takeWhile p = d ∧ (d ++ rest).dropWhile p = rest := by
  induction d with
  | nil =>
    cases rest with
    | nil => simp
    | cons r rs =>
      have hrr := hr r rfl
      simp [List.takeWhile_cons, List.dropWhile_cons, hrr]
  | cons c cs ih =>
    simp only [List.all_cons, Bool.and_eq_true] at hd
    have hrest := ih hd.2
    simp [List.takeWhile_cons, List.dropWhile_cons, hd.1, hrest.1, hrest.2]

/-- `takeWhile` walks through an all-true block into the tail. -/
theorem takeWhile_append_of_all {p : Char → Bool} (d t : List Char)
    (hd : d.all p = true) :
    (d ++ t).takeWhile p = d ++ t.takeWhile p := by
  induction d with
  | nil => rfl
  | cons c cs ih =>
    simp only [List.all_cons, Bool.and_eq_true] at hd
    simp [List.takeWhile_cons, hd.1, ih hd.2]

/-- The CSQ matcher succeeds on an exact fragment head, capturing the first
digit block verbatim (the second capture greedily extends into the tail's
leading digits, which the driver discards anyway). -/
theorem matchCSQAt_fragment (d1 d2 postL : List Char)
    (h1 : d1 ≠ []) (h1d : d1.all Char.isDigit = true)
    (h2 : d2 ≠ []) (h2d : d2.all Char.isDigit = true) :
    matchCSQAt ('+' :: 'C' :: 'S' :: 'Q' :: ':' :: ' ' :: (d1 ++ ',' :: (d2 ++ postL)))
      = some (d1, d2 ++ postL.takeWhile Char.isDigit) := by
  obtain ⟨c1, d1', rfl⟩ : ∃ c t, d1 = c :: t := by
    cases d1 with
    | nil => exact absurd rfl h1
    | cons a b => exact ⟨a, b, rfl⟩
  have hc1 : Char.isDigit c1 = true := by
    simp only [List.all_cons, Bool.and_eq_true] at h1d
    exact h1d.1
  have hsw : listStartsWith ("+CSQ:".toList)
      ('+' :: 'C' :: 'S' :: 'Q' :: ':' :: ' ' :: ((c1 :: d1') ++ ',' :: (d2 ++ postL)))
      = true := rfl
  have hdw : (((c1 :: d1') ++ ',' :: (d2 ++ postL)).dropWhile isRegexSpace)
      = (c1 :: d1') ++ ',' :: (d2 ++ postL) := by
    simp [List.dropWhile_cons, isRegexSpace_eq_false_of_isDigit c1 hc1]
  have hspan1 := takeWhile_dropWhile_all_append (p := Char.isDigit)
    (c1 :: d1') (',' :: (d2 ++ postL)) h1d (by intro c hc; cases hc; rfl)
  have hspan2t : ((d2 ++ postL).takeWhile Char.isDigit)
      = d2 ++ postL.takeWhile Char.isDigit := takeWhile_append_of_all d2 postL h2d
  have hne2 : (d2 ++ postL.takeWhile Char.isDigit).isEmpty = false := by
    cases d2 with
    | nil => exact absurd rfl h2
    | cons a b => rfl
  simp only [matchCSQAt, hsw, if_true]
  simp only [List.drop_succ_cons, List.drop_zero, List.dropWhile_cons]
  rw [show isRegexSpace ' ' = true from rfl]
  simp only [if_true, hdw, List.span_eq_take_drop, hspan1.1, hspan1.2]
  simp only [List.isEmpty_cons, hspan2t, hne2]
  simp

/-- A position whose head is not `'+'` cannot start a CSQ match. -/
theorem matchCSQAt_eq_none_of_head_ne (c : Char) (h : c ≠ '+') (cs : List Char) :
    matchCSQAt (c :: cs) = none := by
  have hb : ('+' == c) = false := by
    cases hbc : ('+' == c)
    · rfl
    · exact absurd (beq_iff_eq.mp hbc).symm h
  have hsw : listStartsWith ['+', 'C', 'S', 'Q', ':'] (c :: cs) = false := by
    show (('+' == c) && listStartsWith ['C', 'S', 'Q', ':'] cs) = false
    simp [hb]
  have hsw' : listStartsWith ("+CSQ:".toList) (c :: cs) = false := hsw
  simp [matchCSQAt, hsw, hsw']

/-- One scan step over a position where the matcher fails. -/
theorem scanFirst_cons_none {α : Type} (m : List Char → Option α) (c : Char)
    (cs : List Char) (h : m (c :: cs) = none) :
    scanFirst m (c :: cs) = scanFirst m cs := by
  simp [scanFirst, h]

/-- One scan step over a position where the matcher succeeds. -/
theorem scanFirst_cons_some {α : Type} (m : List Char → Option α) (c : Char)
    (cs : List Char) (r : α) (h : m (c :: cs) = some r) :
    scanFirst m (c :: cs) = some r := by
  simp [scanFirst, h]

/-- The leftmost scan passes over a prefix containing no `'+'`. -/
theorem scanFirst_csq_append (preL : List Char) (hp : ∀ c ∈ preL, c ≠ '+')
    (X : List Char) :
    scanFirst matchCSQAt (preL ++ X) = scanFirst matchCSQAt X := by
  induction preL with
  | nil => rfl
  | cons c cs ih =>
    have hc : c ≠ '+' := hp c (List.mem_cons_self c cs)
    rw [List.cons_append,
      scanFirst_cons_none matchCSQAt c (cs ++ X) (matchCSQAt_eq_none_of_head_ne c hc _)]
    exact ih (fun d hd => hp d (List.mem_cons_of_mem c hd))

/-- Without the literal "+CSQ:" anywhere in the text, the scan fails. -/
theorem scanFirst_csq_none (cs : List Char)
    (h : listContainsSub ("+CSQ:".toList) cs = false) :
    scanFirst matchCSQAt cs = none := by
  induction cs with
  | nil => rfl
  | cons c cs ih =>
    have h' := h
    simp only [listContainsSub, Bool.or_eq_false_iff] at h'
    have hl : listStartsWith ['+', 'C', 'S', 'Q', ':'] (c :: cs) = false := h'.1
    have hm : matchCSQAt (c :: cs) = none := by
      simp [matchCSQAt, h'.1, hl]
    rw [scanFirst_cons_none matchCSQAt c cs hm]
    exact ih h'.2

/-- The claim C7 as frozen asserts every well-formed "+CSQ: <n>,<m>"
fragment parses to its first captured number, but the source's
`fmt.Sscanf(matches[1], "%d", &signal)` fails out of range for captures
beyond Go's 64-bit `int`, and `getSignalStrength` then returns `(0, error)`:
at the response below the first capture's value is 99999999999999999999,
which exceeds `maxGoInt`, yet the result is the zero value with a scan
error, not that number. -/
theorem claim_C7_counterexample_overflow :
    getSignalStrength "+CSQ: 99999999999999999999,99\r\nOK\r\n"
      = (0, some GoError.valueOutOfRange) ∧
    scanFirst matchCSQAt ("+CSQ: 99999999999999999999,99\r\nOK\r\n".toList)
      = some ("99999999999999999999".toList, "99".toList) ∧
    digitsToNat ("99999999999999999999".toList) = 99999999999999999999 ∧
    maxGoInt < 99999999999999999999 := by
  exact ⟨by decide, by decide, by decide, by decide⟩

/-- Claim C7 as amended: a well-formed "+CSQ: <n>,<m>" fragment whose first
capture's value fits Go's 64-bit `int` parses to that value; a fragment
whose first capture overflows makes the `Sscanf` step fail, returning the
zero value 0 with an error; and a response with no fragment returns a
ParseError together with the zero value 0, which the snapshot assembly
stores as the field's default. -/
theorem claim_C7_getSignalStrength :
    (∀ (pre : String) (d1 d2 : List Char) (post : String),
      (∀ c ∈ pre.toList, c ≠ '+') →
      d1 ≠ [] → d1.all Char.isDigit = true →
      d2 ≠ [] → d2.all Char.isDigit = true →
      digitsToNat d1 ≤ maxGoInt →
      getSignalStrength
          (pre ++ "+CSQ: " ++ String.mk d1 ++ "," ++ String.mk d2 ++ post)
        = (((Nat.ofDigits 10 ((d1.map charDigitVal).reverse) : Nat) : Int), none)) ∧
    (∀ (pre : String) (d1 d2 : List Char) (post : String),
      (∀ c ∈ pre.toList, c ≠ '+') →
      d1 ≠ [] → d1.all Char.isDigit = true →
      d2 ≠ [] → d2.all Char.isDigit = true →
      maxGoInt < digitsToNat d1 →
      getSignalStrength
          (pre ++ "+CSQ: " ++ String.mk d1 ++ "," ++ String.mk d2 ++ post)
        = (0, some GoError.valueOutOfRange)) ∧
    (∀ response : String, goContains response "+CSQ:" = false →
      getSignalStrength response = (0, some GoError.parseFailed)) ∧
    (∀ response : String, scanFirst matchCSQAt response.toList = none →
      getSignalStrength response = (0, some GoError.parseFailed)) ∧
    (∀ (rs : ModemResponses) (r : String), rs.csq = Except.ok r →
      scanFirst matchCSQAt r.toList = none →
      (CheckNetworkStatus rs).1.SignalStrength = 0) := by
  refine ⟨?_, ?_, ?_, ?_, ?_⟩
  · intro pre d1 d2 post hpre h1 h1d h2 h2d hle
    have htl : (pre ++ "+CSQ: " ++ String.mk d1 ++ "," ++ String.mk d2 ++ post).toList
        = pre.toList
          ++ ('+' :: 'C' :: 'S' :: 'Q' :: ':' :: ' ' :: (d1 ++ ',' :: (d2 ++ post.toList))) := by
      simp only [toList_append]
      simp [List.append_assoc]
    have hss : sscanfDecimal d1
        = Except.ok (Nat.ofDigits 10 ((d1.map charDigitVal).reverse)) := by
      unfold sscanfDecimal
      rw [if_pos hle, digitsToNat_eq_ofDigits]
    unfold getSignalStrength
    rw [htl, scanFirst_csq_append pre.toList hpre]
    have hfrag := matchCSQAt_fragment d1 d2 post.toList h1 h1d h2 h2d
    rw [scanFirst_cons_some matchCSQAt '+'
      ('C' :: 'S' :: 'Q' :: ':' :: ' ' :: (d1 ++ ',' :: (d2 ++ post.toList))) _ hfrag]
    simp only [hss]
  · intro pre d1 d2 post hpre h1 h1d h2 h2d hgt
    have htl : (pre ++ "+CSQ: " ++ String.mk d1 ++ "," ++ String.mk d2 ++ post).toList
        = pre.toList
          ++ ('+' :: 'C' :: 'S' :: 'Q' :: ':' :: ' ' :: (d1 ++ ',' :: (d2 ++ post.toList))) := by
      simp only [toList_append]
      simp [List.append_assoc]
    have hss : sscanfDecimal d1 = Except.error GoError.valueOutOfRange := by
      unfold sscanfDecimal
      rw [if_neg (by omega)]
    unfold getSignalStrength
    rw [htl, scanFirst_csq_append pre.toList hpre]
    have hfrag := matchCSQAt_fragment d1 d2 post.toList h1 h1d h2 h2d
    rw [scanFirst_cons_some matchCSQAt '+'
      ('C' :: 'S' :: 'Q' :: ':' :: ' ' :: (d1 ++ ',' :: (d2 ++ post.toList))) _ hfrag]
    simp only [hss]
  · intro response h
    unfold getSignalStrength
    rw [scanFirst_csq_none response.toList h]
  · intro response h
    unfold getSignalStrength
    rw [h]
  · intro rs r hok h
    have h' : scanFirst matchCSQAt r.data = none := h
    simp [CheckNetworkStatus, fieldResult, hok, getSignalStrength, h, h']

/-- Witness for claim C7 at concrete inputs: a response carrying
"+CSQ: 21,99" parses to 21 (21 is within Go's int range), the overflow
branch errors with the zero value at a 20-digit capture, and a response
with no fragment yields the ParseError with the zero default. -/
theorem claim_C7_getSignalStrength_witness :
    getSignalStrength "blah\r\n+CSQ: 21,99\r\nOK\r\n" = (21, none) ∧
    getSignalStrength "blah\r\n+CSQ: 99999999999999999999,0\r\nOK\r\n"
      = (0, some GoError.valueOutOfRange) ∧
    getSignalStrength "AT\r\nOK\r\n" = (0, some GoError.parseFailed) := by
  refine ⟨?_, ?_, claim_C7_getSignalStrength.2.2.1 "AT\r\nOK\r\n" (by decide)⟩
  · have h := claim_C7_getSignalStrength.1 "blah\r\n" ['2', '1'] ['9', '9'] "\r\nOK\r\n"
      (by decide) (by decide) (by decide) (by decide) (by decide) (by decide)
    have e1 : ("blah\r\n" ++ "+CSQ: " ++ String.mk ['2', '1'] ++ "," ++ String.mk ['9', '9'] ++ "\r\nOK\r\n")
        = "blah\r\n+CSQ: 21,99\r\nOK\r\n" := by decide
    have e2 : (((Nat.ofDigits 10 ((['2', '1'].map charDigitVal).reverse) : Nat) : Int),
        (none : Option GoError)) = (21, none) := by decide
    rw [e1, e2] at h
    exact h
  · have h := claim_C7_getSignalStrength.2.1 "blah\r\n"
      ['9', '9', '9', '9', '9', '9', '9', '9', '9', '9', '9', '9', '9', '9', '9', '9', '9', '9', '9', '9']
      ['0'] "\r\nOK\r\n" (by decide) (by decide) (by decide) (by decide) (by decide) (by decide)
    have e1 : ("blah\r\n" ++ "+CSQ: "
          ++ String.mk ['9', '9', '9', '9', '9', '9', '9', '9', '9', '9', '9', '9', '9', '9', '9', '9', '9', '9', '9', '9']
          ++ "," ++ String.mk ['0'] ++ "\r\nOK\r\n")
        = "blah\r\n+CSQ: 99999999999999999999,0\r\nOK\r\n" := by decide
    rw [e1] at h
    exact h

/-- Claim C8: `CheckNetworkStatus` never fails — the returned error is
always nil — and each of the five fields is collected independently: a
failing query leaves only its own field at the zero value while the other
fields are whatever their own queries produce. -/
theorem claim_C8_CheckNetworkStatus :
    (∀ rs : ModemResponses, (CheckNetworkStatus rs).2 = none) ∧
    (∀ (rs : ModemResponses) (e : GoError), rs.csq = .error e →
      (CheckNetworkStatus rs).1.SignalStrength = 0) ∧
    (∀ (rs : ModemResponses) (e : GoError), rs.creg = .error e →
      (CheckNetworkStatus rs).1.NetworkRegStatus = "") ∧
    (∀ (rs : ModemResponses) (e : GoError), rs.cpin = .error e →
      (CheckNetworkStatus rs).1.SIMStatus = "") ∧
    (∀ (rs : ModemResponses) (e : GoError), rs.cops = .error e →
      (CheckNetworkStatus rs).1.OperatorName = "") ∧
    (∀ (rs : ModemResponses) (e : GoError), rs.cgsn = .error e →
      (CheckNetworkStatus rs).1.IMEI = "") ∧
    (∀ (rs : ModemResponses) (x : Except GoError String),
      (CheckNetworkStatus { rs with csq := x }).1.NetworkRegStatus
          = (CheckNetworkStatus rs).1.NetworkRegStatus ∧
      (CheckNetworkStatus { rs with csq := x }).1.SIMStatus
          = (CheckNetworkStatus rs).1.SIMStatus ∧
      (CheckNetworkStatus { rs with csq := x }).1.OperatorName
          = (CheckNetworkStatus rs).1.OperatorName ∧
      (CheckNetworkStatus { rs with csq := x }).1.IMEI
          = (CheckNetworkStatus rs).1.IMEI) ∧
    (∀ (rs : ModemResponses) (x : Except GoError String),
      (CheckNetworkStatus { rs with cgsn := x }).1.SignalStrength
          = (CheckNetworkStatus rs).1.SignalStrength) := by
  refine ⟨fun rs => rfl, ?_, ?_, ?_, ?_, ?_, ?_, ?_⟩
  · intro rs e h
    simp [CheckNetworkStatus, fieldResult, h]
  · intro rs e h
    simp [CheckNetworkStatus, fieldResult, h]
  · intro rs e h
    simp [CheckNetworkStatus, fieldResult, h]
  · intro rs e h
    simp [CheckNetworkStatus, fieldResult, h]
  · intro rs e h
    simp [CheckNetworkStatus, fieldResult, h]
  · intro rs x
    exact ⟨rfl, rfl, rfl, rfl⟩
  · intro rs x
    rfl

/-- Witness for claim C8: a snapshot whose signal query failed still
reports no error, a zero signal, and untouched collection of the other
fields. -/
theorem claim_C8_CheckNetworkStatus_witness :
    (CheckNetworkStatus ⟨.error .flushFailed, .ok "+CREG: 0,1\r\nOK\r\n",
        .ok "+CPIN: READY\r\nOK\r\n", .ok "+COPS: 0,0,\"CMCC\"\r\nOK\r\n",
        .ok "861234567890123\r\nOK\r\n"⟩).2 = none ∧
    (CheckNetworkStatus ⟨.error .flushFailed, .ok "+CREG: 0,1\r\nOK\r\n",
        .ok "+CPIN: READY\r\nOK\r\n", .ok "+COPS: 0,0,\"CMCC\"\r\nOK\r\n",
        .ok "861234567890123\r\nOK\r\n"⟩).1.SignalStrength = 0 ∧
    (CheckNetworkStatus ⟨.error .flushFailed, .ok "+CREG: 0,1\r\nOK\r\n",
        .ok "+CPIN: READY\r\nOK\r\n", .ok "+COPS: 0,0,\"CMCC\"\r\nOK\r\n",
        .ok "861234567890123\r\nOK\r\n"⟩).1.IMEI
      = (CheckNetworkStatus ⟨.ok "", .ok "+CREG: 0,1\r\nOK\r\n",
        .ok "+CPIN: READY\r\nOK\r\n", .ok "+COPS: 0,0,\"CMCC\"\r\nOK\r\n",
        .ok "861234567890123\r\nOK\r\n"⟩).1.IMEI :=
  ⟨claim_C8_CheckNetworkStatus.1 _,
    claim_C8_CheckNetworkStatus.2.1 _ GoError.flushFailed rfl,
    (claim_C8_CheckNetworkStatus.2.2.2.2.2.2.1
      ⟨.ok "", .ok "+CREG: 0,1\r\nOK\r\n", .ok "+CPIN: READY\r\nOK\r\n",
        .ok "+COPS: 0,0,\"CMCC\"\r\nOK\r\n", .ok "861234567890123\r\nOK\r\n"⟩
      (.error .flushFailed)).2.2.2⟩

end Ec600n
